import Mathlib

/-
Verification development for the ClaudeScreener repository (bundlecheck.py,
tokenscreen.py, walletscreen.py).

Shallow embedding conventions:
- Python numbers (ints and floats flowing through the scoring arithmetic) are
  modelled as rationals; Python int(x) truncation toward zero is pyTrunc.
- A JSON object field read with record.get(key, default) is modelled as the
  value after that read: a field of type Option T holds none when Python would
  see None at that point (key present with a null value where the code later
  distinguishes None), and some v otherwise; fields whose absence collapses to
  a plain default are modelled with that default applied via Option.getD.
- Python dicts keyed by wallet or offset preserve insertion order; they are
  modelled as association lists where a fresh key is appended at the end.
- Python sorted and list.sort are stable; they are modelled with
  List.insertionSort, which inserts an earlier element before later elements
  with an equal key and is therefore extensionally the same stable sort.
- Reason strings carry a signed delta followed by text interpolating the
  triggering metric value; they are modelled as pairs of the delta and the
  static text, the numeric interpolation being presentation only.
- Network fetching, report formatting and CLI glue are out of scope; the
  embedded functions are the pure cores applied to already-fetched records.
-/

namespace ClaudeScreener

/-- Python int(x) for a rational x: truncation toward zero. -/
def pyTrunc (q : ℚ) : ℤ := q.num.tdiv q.den

/-- The final clamp max(0, min(100, score)) shared by all three scorers. -/
def clampScore (s : ℤ) : ℤ := max 0 (min 100 s)

/-- A score-breakdown entry: the signed delta and the static reason text. -/
abbrev Reason := ℤ × String

/-- One triggered rule: the two source lines score += delta and
reasons.append(reason), as a single accumulator update. -/
def addRule (acc : ℤ × List Reason) (d : ℤ) (s : String) : ℤ × List Reason :=
  (acc.1 + d, acc.2 ++ [(d, s)])

/-- Python truthiness of an optional string (None and the empty string are falsy). -/
def truthyStr : Option String → Bool
  | none => false
  | some s => !(s == "")

/-- Lowercasing used to model Python str.lower on the ASCII names involved. -/
def lowerChars (s : String) : List Char := s.toList.map Char.toLower

/-- Python substring containment: needle in hay. -/
def hasSub (needle : List Char) : List Char → Bool
  | [] => needle.isPrefixOf []
  | c :: rest => needle.isPrefixOf (c :: rest) || hasSub needle rest

namespace Bundlecheck

/-- One entry of a tokenTransfers sub-record of a Helius transaction. -/
structure TokenTransfer where
  mint : String
  toUserAccount : Option String
  fromUserAccount : Option String
  tokenAmount : ℚ
deriving DecidableEq

/-- A raw transaction record; slot and timestamp are optional fields. -/
structure TransactionRecord where
  slot : Option ℕ
  timestamp : Option ℤ
  tokenTransfers : List TokenTransfer
deriving DecidableEq

/-- Sort key: tx.get(timestamp, 0). -/
def txTimestamp (tx : TransactionRecord) : ℤ := tx.timestamp.getD 0

/-- sorted(transactions, key=lambda x: x.get(timestamp, 0)) - a stable ascending sort. -/
def sortByTimestamp (txs : List TransactionRecord) : List TransactionRecord :=
  List.insertionSort (fun a b => txTimestamp a ≤ txTimestamp b) txs

/-- The creation-slot scan: the first record in sorted order whose slot field is
truthy (present and nonzero) supplies the creation slot and creation timestamp. -/
def findCreationSlot : List TransactionRecord → Option (ℕ × ℤ)
  | [] => none
  | tx :: rest =>
    match tx.slot with
    | some s => if s = 0 then findCreationSlot rest else some (s, txTimestamp tx)
    | none => findCreationSlot rest

/-- Specification-side description of the reference point used for the amended
C5: the truthy (present, nonzero) slot values of the records in list order. -/
def truthySlotsOf (txs : List TransactionRecord) : List ℕ :=
  txs.filterMap fun tx =>
    match tx.slot with
    | some s => if s = 0 then none else some s
    | none => none

/-- One qualifying buy: a token transfer of the target mint with a truthy
destination and a positive amount, tagged with the slot data of its record. -/
structure BuyEvent where
  wallet : String
  amount : ℚ
  txSlot : Option ℕ
  slot : ℕ
  slotDiff : ℤ
deriving DecidableEq

/-- The qualifying buy events of one record, given the creation slot c.
Mirrors the inner loop: slot = tx.get(slot, 0); slot_diff = slot - c if c else 0;
transfers whose mint mismatches, whose destination is falsy or whose amount is
falsy are skipped, and the buy branch additionally requires amount > 0. -/
def buyEventsOfTx (mint : String) (c : ℕ) (tx : TransactionRecord) : List BuyEvent :=
  let slot : ℕ := tx.slot.getD 0
  let slotDiff : ℤ := if c = 0 then 0 else (slot : ℤ) - (c : ℤ)
  tx.tokenTransfers.filterMap fun tr =>
    if tr.mint ≠ mint then none
    else if ¬ truthyStr tr.toUserAccount ∨ tr.tokenAmount = 0 then none
    else if truthyStr tr.toUserAccount ∧ 0 < tr.tokenAmount then
      some ⟨tr.toUserAccount.getD "", tr.tokenAmount, tx.slot, slot, slotDiff⟩
    else none

/-- All qualifying buy events of the sorted record list, in iteration order. -/
def buyEvents (mint : String) (c : ℕ) (txs : List TransactionRecord) : List BuyEvent :=
  txs.flatMap (buyEventsOfTx mint c)

/-- Per-wallet accumulator: cumulative amount, first slot, frozen Block-0 flag. -/
structure Purchase where
  amount : ℚ
  slot : Option ℕ
  is_block0 : Bool
deriving DecidableEq

/-- Insertion-ordered association list modelling the wallet_purchases dict. -/
abbrev PurchaseMap := List (String × Purchase)

/-- Lookup in the wallet_purchases dict. -/
def lookupW (m : PurchaseMap) (w : String) : Option Purchase :=
  (m.find? (fun q => q.1 == w)).map (·.2)

/-- The defaultdict default entry for a never-seen wallet. -/
def defaultPurchase : Purchase := { amount := 0, slot := none, is_block0 := false }

/-- The per-buy entry update: the amount is always accumulated; the slot and
the is_block0 flag are set only while slot is still None, i.e. exactly on the
first buy of that wallet. -/
def updateOnBuy (e : BuyEvent) (p : Purchase) : Purchase :=
  if p.slot = none then
    { amount := p.amount + e.amount, slot := some e.slot,
      is_block0 := decide (e.slotDiff ≤ 1) }
  else
    { p with amount := p.amount + e.amount }

/-- One wallet_purchases dict update: an unseen wallet is appended at the end
with the defaultdict default updated, a seen wallet has its entry updated in
place. -/
def stepPurchase (m : PurchaseMap) (e : BuyEvent) : PurchaseMap :=
  match m.find? (fun q => q.1 == e.wallet) with
  | none => m ++ [(e.wallet, updateOnBuy e defaultPurchase)]
  | some _ =>
      m.map fun q => if q.1 == e.wallet then (q.1, updateOnBuy e q.2) else q

/-- The wallet_purchases dict after folding all qualifying buys. -/
def wallet_purchases (mint : String) (c : ℕ) (txs : List TransactionRecord) : PurchaseMap :=
  (buyEvents mint c (sortByTimestamp txs)).foldl stepPurchase []

/-- An entry appended to a buyers_by_slot bucket. -/
structure SlotBuy where
  wallet : String
  amount : ℚ
  slot : ℕ
deriving DecidableEq

/-- One buyers_by_slot defaultdict update: append to the bucket of the offset. -/
def stepBucket (m : List (ℤ × List SlotBuy)) (e : BuyEvent) : List (ℤ × List SlotBuy) :=
  match m.find? (fun q => q.1 == e.slotDiff) with
  | none => m ++ [(e.slotDiff, [⟨e.wallet, e.amount, e.slot⟩])]
  | some _ =>
      m.map fun q =>
        if q.1 == e.slotDiff then (q.1, q.2 ++ [⟨e.wallet, e.amount, e.slot⟩]) else q

/-- buyers_by_slot.get(k, []). -/
def bucketAt (m : List (ℤ × List SlotBuy)) (k : ℤ) : List SlotBuy :=
  ((m.find? (fun q => q.1 == k)).map (·.2)).getD []

/-- The wallets flagged Block 0, with their cumulative amounts, in dict order. -/
def block0Entries (m : PurchaseMap) : List (String × ℚ) :=
  (m.filter (fun q => q.2.is_block0)).map (fun q => (q.1, q.2.amount))

/-- The analysis result dict of analyze_launch_transactions (success case). -/
structure LaunchAnalysis where
  creation_slot : ℕ
  creation_timestamp : ℤ
  block0_buyers : List (String × ℚ)
  block0_count : ℕ
  block0_total : ℚ
  block0_pct : ℚ
  total_transferred : ℚ
  early_buyer_count : ℕ
  all_buyers : ℕ
  buyers_by_slot : List (ℤ × ℕ)
deriving DecidableEq

/-- The successful analysis result, given the creation slot and timestamp found
by the scan. block0_pct guards its division by total_transferred > 0; the
buyers list is sorted by amount descending (stable). -/
def mkAnalysis (mint : String) (c : ℕ) (cts : ℤ) (txs : List TransactionRecord) :
    LaunchAnalysis :=
  let evs := buyEvents mint c (sortByTimestamp txs)
  let purchases := wallet_purchases mint c txs
  let buckets := evs.foldl stepBucket []
  let b0 := block0Entries purchases
  let block0_buyers := List.insertionSort (fun a b => b.2 ≤ a.2) b0
  let block0_total := (b0.map (·.2)).sum
  let total := (purchases.map (·.2.amount)).sum
  { creation_slot := c
    creation_timestamp := cts
    block0_buyers := block0_buyers
    block0_count := block0_buyers.length
    block0_total := block0_total
    block0_pct := if 0 < total then block0_total / total * 100 else 0
    total_transferred := total
    early_buyer_count := ([0, 1, 2, 3, 4, 5].map (fun s => (bucketAt buckets s).length)).sum
    all_buyers := purchases.length
    buyers_by_slot :=
      ((List.insertionSort (fun a b => a.1 ≤ b.1) buckets).take 10).map
        (fun q => (q.1, q.2.length)) }

/-- analyze_launch_transactions: empty input and a failed creation-slot scan are
the two hard failures; otherwise the aggregated analysis is returned. -/
def analyze_launch_transactions (txs : List TransactionRecord) (mint : String) :
    Except String LaunchAnalysis :=
  if txs = [] then .error "No transactions found"
  else
    match findCreationSlot (sortByTimestamp txs) with
    | none => .error "Could not determine creation slot"
    | some (c, cts) => .ok (mkAnalysis mint c cts txs)

/-- The number-of-Block-0-buyers rule block of calculate_risk_score. -/
def buyerCountRule (a : LaunchAnalysis) (acc : ℤ × List Reason) : ℤ × List Reason :=
  if 20 ≤ a.block0_count then
    addRule acc 40 "wallets bought in Block 0 (highly coordinated)"
  else if 10 ≤ a.block0_count then
    addRule acc 25 "wallets bought in Block 0 (suspicious)"
  else if 5 ≤ a.block0_count then
    addRule acc 10 "wallets bought in Block 0"
  else acc

/-- The Block-0 supply concentration rule block of calculate_risk_score. -/
def supplyPctRule (a : LaunchAnalysis) (acc : ℤ × List Reason) : ℤ × List Reason :=
  if 50 ≤ a.block0_pct then addRule acc 35 "of supply grabbed in Block 0"
  else if 30 ≤ a.block0_pct then addRule acc 25 "of supply grabbed in Block 0"
  else if 15 ≤ a.block0_pct then addRule acc 15 "of supply grabbed in Block 0"
  else if 5 ≤ a.block0_pct then addRule acc 5 "of supply grabbed in Block 0"
  else acc

/-- The single-large-sniper rule block of calculate_risk_score: evaluated only
when the Block-0 buyers list is nonempty, dividing the largest buyer amount by
total_transferred. -/
def sniperRule (a : LaunchAnalysis) (acc : ℤ × List Reason) : ℤ × List Reason :=
  match a.block0_buyers with
  | [] => acc
  | b :: _ =>
    if 10 ≤ b.2 / a.total_transferred * 100 then
      addRule acc 20 "Single wallet sniped in Block 0"
    else if 5 ≤ b.2 / a.total_transferred * 100 then
      addRule acc 10 "Single wallet sniped in Block 0"
    else acc

/-- The positive clean-launch rule block of calculate_risk_score. -/
def cleanLaunchRule (a : LaunchAnalysis) (acc : ℤ × List Reason) : ℤ × List Reason :=
  if a.block0_count ≤ 2 ∧ a.block0_pct < 5 then
    addRule acc (-10) "Clean launch (minimal Block 0 activity)"
  else acc

/-- calculate_risk_score: the four ordered rule blocks over the analysis
metrics, clamped to the 0..100 range at the end. -/
def calculate_risk_score (a : LaunchAnalysis) : ℤ × List Reason :=
  let acc1 := buyerCountRule a (0, [])
  let acc2 := supplyPctRule a acc1
  let acc3 := sniperRule a acc2
  let acc4 := cleanLaunchRule a acc3
  (clampScore acc4.1, acc4.2)

/-- The buyer-count tier contribution of calculate_risk_score (highest tier only). -/
def b0CountDelta (a : LaunchAnalysis) : ℤ :=
  if 20 ≤ a.block0_count then 40
  else if 10 ≤ a.block0_count then 25
  else if 5 ≤ a.block0_count then 10
  else 0

/-- The supply-share tier contribution of calculate_risk_score (highest tier only). -/
def b0PctDelta (a : LaunchAnalysis) : ℤ :=
  if 50 ≤ a.block0_pct then 35
  else if 30 ≤ a.block0_pct then 25
  else if 15 ≤ a.block0_pct then 15
  else if 5 ≤ a.block0_pct then 5
  else 0

/-- The single-largest-sniper tier contribution of calculate_risk_score. -/
def sniperDelta (a : LaunchAnalysis) : ℤ :=
  match a.block0_buyers with
  | [] => 0
  | b :: _ =>
    if 10 ≤ b.2 / a.total_transferred * 100 then 20
    else if 5 ≤ b.2 / a.total_transferred * 100 then 10
    else 0

/-- The clean-launch deduction of calculate_risk_score. -/
def cleanLaunchDelta (a : LaunchAnalysis) : ℤ :=
  if a.block0_count ≤ 2 ∧ a.block0_pct < 5 then -10 else 0

end Bundlecheck

namespace Walletscreen

/-- The wallet-age rule block of calculate_dev_risk_score, reached only when
the fresh-wallet override did not fire. -/
def devAgeAcc (wallet_age_days : ℚ) : ℤ × List Reason :=
  if wallet_age_days < 7 then addRule (0, []) 30 "Very new wallet"
  else if wallet_age_days < 30 then addRule (0, []) 10 "Newer wallet"
  else (0, [])

/-- The rug-rate rule block: int(rug_rate * 70) points when positive. The source
also computes an unused bad_rate alongside rug_rate. -/
def devRugRateRule (total_launches rug_count : ℕ) (acc : ℤ × List Reason) : ℤ × List Reason :=
  let rug_rate : ℚ :=
    if 0 < total_launches then (rug_count : ℚ) / (total_launches : ℚ) else 0
  let rug_points : ℤ := pyTrunc (rug_rate * 70)
  if 0 < rug_points then addRule acc rug_points "confirmed rug rate"
  else acc

/-- The rug floor: any confirmed rug forces the running score up to 40. -/
def devRugFloorRule (rug_count : ℕ) (acc : ℤ × List Reason) : ℤ × List Reason :=
  if 0 < rug_count ∧ acc.1 < 40 then ((40 : ℤ), acc.2 ++ [(40, "min: Has confirmed rug(s)")])
  else acc

/-- The dead-token penalty, applied only when there is no confirmed rug. -/
def devDeadRule (rug_count dead_count : ℕ) (acc : ℤ × List Reason) : ℤ × List Reason :=
  if 0 < dead_count ∧ rug_count = 0 then
    addRule acc (min 30 ((dead_count : ℤ) * 10)) "dead token(s)"
  else acc

/-- The serial-launcher penalty based on launches per week. -/
def devSerialRule (launches_per_week : ℚ) (acc : ℤ × List Reason) : ℤ × List Reason :=
  if 2 < launches_per_week then
    addRule acc (min 20 (pyTrunc (launches_per_week * 5))) "Serial launcher"
  else if 1 < launches_per_week then addRule acc 10 "Frequent launcher"
  else acc

/-- The volume penalty based on the total launch count. -/
def devVolumeRule (total_launches : ℕ) (acc : ℤ × List Reason) : ℤ × List Reason :=
  if 10 < total_launches then addRule acc 15 "Industrial scale"
  else if 5 < total_launches then addRule acc 10 "High volume"
  else acc

/-- The positive clean-track-record rule: 3 or more launches with no bad outcome. -/
def devCleanRule (total_launches bad_count : ℕ) (acc : ℤ × List Reason) : ℤ × List Reason :=
  if 3 ≤ total_launches ∧ bad_count = 0 then
    addRule acc (-15) "Clean track record (3+ tokens, no rugs)"
  else acc

/-- calculate_dev_risk_score: fresh-wallet override, first-launch override, then
rug-rate, rug floor, dead-token, serial-launcher, volume and clean-record rules,
clamped at the end. Counts are naturals as produced by the call site
(len and sum of generators); age and launch frequency are rationals. -/
def calculate_dev_risk_score (wallet_age_days : ℚ) (total_launches rug_count dead_count : ℕ)
    (launches_per_week : ℚ) : ℤ × List Reason :=
  if wallet_age_days < 3 then
    (95, [(95, "BURNER WALLET")])
  else
    let acc1 := devAgeAcc wallet_age_days
    if total_launches = 0 then
      (min 100 (max acc1.1 80), acc1.2 ++ [(80, "First-ever token launch (no track record)")])
    else
      let acc2 := devRugRateRule total_launches rug_count acc1
      let acc3 := devRugFloorRule rug_count acc2
      let acc4 := devDeadRule rug_count dead_count acc3
      let acc5 := devSerialRule launches_per_week acc4
      let acc6 := devVolumeRule total_launches acc5
      let acc7 := devCleanRule total_launches (rug_count + dead_count) acc6
      (clampScore acc7.1, acc7.2)

end Walletscreen

/-- The lifecycle statuses produced by the two classify_token_outcome variants. -/
inductive TokenStatus
  | RUGGED
  | DEAD
  | LOW_LIQ
  | ACTIVE
  | HIGH_RISK
  | CAUTION
  | UNKNOWN
deriving DecidableEq

/-- The RugCheck summary signals a classifier consults: the rugged flag and the
value of rugcheck.get(score, 100) (none models a null score). -/
structure RugSummary where
  rugged : Bool
  score : Option ℚ
deriving DecidableEq

/-- The DexScreener pair signals a classifier consults: the value of
pair.get(liquidity, {}).get(usd, 0); the subsequent or-0 collapses null to 0. -/
structure DexPairInfo where
  liquidityUsd : Option ℚ
deriving DecidableEq

namespace Tokenscreen

/-- classify_token_outcome in tokenscreen.py, as a pure function of the two
fetched readings (none models a failed lookup). -/
def classify_token_outcome (rug : Option RugSummary) (dex : Option DexPairInfo) : TokenStatus :=
  match rug with
  | some r =>
    if r.rugged then .RUGGED
    else
      match dex with
      | some d =>
        let liq := d.liquidityUsd.getD 0
        if liq < 1000 then .DEAD
        else if liq < 5000 then .LOW_LIQ
        else .ACTIVE
      | none =>
        if 70 < r.score.getD 100 then .HIGH_RISK else .UNKNOWN
  | none =>
    match dex with
    | some d =>
      let liq := d.liquidityUsd.getD 0
      if liq < 1000 then .DEAD
      else if liq < 5000 then .LOW_LIQ
      else .ACTIVE
    | none => .UNKNOWN

end Tokenscreen

namespace Walletscreen

/-- classify_token_outcome in walletscreen.py: same shape as the tokenscreen
variant except for the lower score buckets (CAUTION above 40, else ACTIVE). -/
def classify_token_outcome (rug : Option RugSummary) (dex : Option DexPairInfo) : TokenStatus :=
  match rug with
  | some r =>
    if r.rugged then .RUGGED
    else
      match dex with
      | some d =>
        let liq := d.liquidityUsd.getD 0
        if liq < 1000 then .DEAD
        else if liq < 5000 then .LOW_LIQ
        else .ACTIVE
      | none =>
        if 70 < r.score.getD 100 then .HIGH_RISK
        else if 40 < r.score.getD 100 then .CAUTION
        else .ACTIVE
  | none =>
    match dex with
    | some d =>
      let liq := d.liquidityUsd.getD 0
      if liq < 1000 then .DEAD
      else if liq < 5000 then .LOW_LIQ
      else .ACTIVE
    | none => .UNKNOWN

end Walletscreen

namespace Tokenscreen

/-- The fixed DEX name fragments matched case-insensitively against account names. -/
def DEX_PATTERNS : List String :=
  ["pool", "amm", "liquidity", "vault", "reserve",
   "raydium", "orca", "meteora", "whirlpool",
   "lifinity", "phoenix", "openbook", "serum",
   "invariant", "saber", "aldrin", "crema",
   "cpmm", "clmm", "damm"]

/-- The fixed burn addresses excluded from holder analysis. -/
def BURN_ADDRESSES : List String :=
  ["1111111111111111111111111111111111",
   "1nc1nerator11111111111111111111111111111111"]

/-- is_lp_or_dex_account: type tag whitelist, burn-address list, then
case-insensitive substring match of the name against the DEX patterns. -/
def is_lp_or_dex_account (account_type account_name address : String) : Bool :=
  if account_type ∈ (["AMM", "LP", "POOL", "DEX"] : List String) then true
  else if address ∈ BURN_ADDRESSES then true
  else DEX_PATTERNS.any (fun p => hasSub p.toList (lowerChars account_name))

/-- One entry of the risks array: a name and a severity level. -/
structure RiskFlag where
  name : String
  level : String
deriving DecidableEq

/-- One market entry; the field is the value of market.get(lp, {}).get(lpLockedPct, 0)
with the or-0 collapse applied afterwards, so missing and null both read as 0. -/
structure MarketInfo where
  lpLockedPct : Option ℚ
deriving DecidableEq

/-- One topHolders entry; pct is the value of h.get(pct, 0). -/
structure Holder where
  address : String
  pct : Option ℚ
deriving DecidableEq

/-- The RugCheck report fields calculate_custom_score reads. mintAuthority and
freezeAuthority are the truthiness of those fields. token_extensions entries are
the extension names (none when ext.get(extension) is None). knownAccounts maps
an address to its type and name strings. totalMarketLiquidity, creatorBalance
and tokenSupply hold the values after the respective get with default (0, 0, 1):
none models a key present with a JSON null, which Python then treats as None. -/
structure RugcheckReport where
  mintAuthority : Bool
  freezeAuthority : Bool
  risks : List RiskFlag
  token_extensions : List (Option String)
  totalMarketLiquidity : Option ℚ
  topHolders : List Holder
  knownAccounts : List (String × String × String)
  creatorBalance : Option ℚ
  tokenSupply : Option ℚ
  markets : List MarketInfo
deriving DecidableEq

/-- known_accounts.get(addr, {}) followed by get(type, "") and get(name, ""). -/
def kaLookup (ka : List (String × String × String)) (addr : String) : String × String :=
  ((ka.find? (fun q => q.1 == addr)).map (·.2)).getD ("", "")

/-- The needle of the mutable-metadata check. -/
def mutableChars : List Char := "mutable".toList

/-- calculate_custom_score: ordered additive rules over the RugCheck report and
the optional DexScreener pair, clamped to 0..100 at the end. -/
def calculate_custom_score (rugcheck : RugcheckReport) (dex : Option DexPairInfo) :
    ℤ × List Reason :=
  let acc0 : ℤ × List Reason := (0, [])
  let acc1 :=
    if rugcheck.mintAuthority then
      addRule acc0 30 "Mint authority active (can create more tokens)"
    else acc0
  let acc2 :=
    if rugcheck.freezeAuthority then
      addRule acc1 25 "Freeze authority active (can freeze holders)"
    else acc1
  let acc3 :=
    if rugcheck.risks.any (fun r => hasSub mutableChars (lowerChars r.name)) then
      addRule acc2 5 "Mutable metadata"
    else acc2
  let acc4 :=
    rugcheck.token_extensions.foldl
      (fun acc ext =>
        match ext with
        | some "transferHook" =>
          addRule acc 25 "TransferHook extension (can block or tax transfers)"
        | some "permanentDelegate" =>
          addRule acc 30 "PermanentDelegate (can drain tokens)"
        | some "transferFeeConfig" =>
          addRule acc 10 "TransferFee extension"
        | _ => acc)
      acc3
  let liq0 : Option ℚ :=
    match dex with
    | some d => d.liquidityUsd
    | none => none
  let liq_usd : Option ℚ :=
    match liq0 with
    | some v => some v
    | none => rugcheck.totalMarketLiquidity
  let acc5 : ℤ × List Reason :=
    match liq_usd with
    | some l =>
      if l < 1000 then addRule acc4 20 "Very low liquidity"
      else if l < 10000 then addRule acc4 10 "Low liquidity"
      else acc4
    | none => acc4
  let real_holders :=
    rugcheck.topHolders.filter fun h =>
      let ka := kaLookup rugcheck.knownAccounts h.address
      !(is_lp_or_dex_account ka.1 ka.2 h.address)
  let acc6 : ℤ × List Reason :=
    match real_holders with
    | [] => acc5
    | h0 :: _ =>
      let top10 := ((real_holders.take 10).map (fun h => h.pct.getD 0)).sum
      let a :=
        if 80 < top10 then addRule acc5 20 "Extreme holder concentration"
        else if 50 < top10 then addRule acc5 10 "High holder concentration"
        else acc5
      if 30 < h0.pct.getD 0 then addRule a 15 "Single wallet holds a large share"
      else if 20 < h0.pct.getD 0 then addRule a 8 "Single wallet holds a large share"
      else a
  let acc7 : ℤ × List Reason :=
    match rugcheck.tokenSupply, rugcheck.creatorBalance with
    | some ts, some cb =>
      if ts ≠ 0 ∧ cb ≠ 0 then
        let creator_pct := cb / ts * 100
        if 20 < creator_pct then addRule acc6 15 "Creator still holds a large share"
        else if 10 < creator_pct then addRule acc6 8 "Creator holds a share"
        else acc6
      else acc6
    | _, _ => acc6
  let acc8 :=
    rugcheck.risks.foldl
      (fun acc r =>
        if hasSub mutableChars (lowerChars r.name) then acc
        else if r.level = "error" ∨ r.level = "danger" then addRule acc 15 r.name
        else if r.level = "warn" then addRule acc 5 r.name
        else acc)
      acc7
  let max_lp_locked : ℚ := rugcheck.markets.foldl (fun m mk => max m (mk.lpLockedPct.getD 0)) 0
  let acc9 :=
    if 90 ≤ max_lp_locked then addRule acc8 (-10) "LP locked"
    else if 50 ≤ max_lp_locked then addRule acc8 (-5) "LP locked"
    else acc8
  let acc10 :=
    if rugcheck.creatorBalance = some 0 then
      addRule acc9 (-5) "Creator holds 0 tokens"
    else acc9
  (clampScore acc10.1, acc10.2)

end Tokenscreen

/-- The concrete scenario of C2: an analysis with 25 Block-0 wallets holding 60
percent of the 100 transferred units, the largest buyer holding 12 units. -/
def scenarioBlock0 : Bundlecheck.LaunchAnalysis where
  creation_slot := 1
  creation_timestamp := 0
  block0_buyers := ("w0", 12) :: List.replicate 24 ("w", (2 : ℚ))
  block0_count := 25
  block0_total := 60
  block0_pct := 60
  total_transferred := 100
  early_buyer_count := 25
  all_buyers := 25
  buyers_by_slot := [(0, 25)]

/-- The outcome-classifier precedence exactly as claim C9 states it, written
from the claim words: rugged short-circuits; else a present liquidity reading
is bucketed at 1000 and 5000 dollars; else a present safety score gives
HIGH_RISK above 70 and UNKNOWN otherwise; else UNKNOWN. -/
def claimC9Status (rug : Option RugSummary) (dex : Option DexPairInfo) : TokenStatus :=
  if (match rug with | some r => r.rugged | none => false) then .RUGGED
  else
    match dex with
    | some d =>
      if d.liquidityUsd.getD 0 < 1000 then .DEAD
      else if d.liquidityUsd.getD 0 < 5000 then .LOW_LIQ
      else .ACTIVE
    | none =>
      match rug with
      | some r => if 70 < r.score.getD 100 then .HIGH_RISK else .UNKNOWN
      | none => .UNKNOWN

/-- The amended behavior for the walletscreen variant: same precedence, but
with no liquidity reading and a present safety score the lower buckets are
CAUTION above 40 and ACTIVE otherwise, instead of UNKNOWN. -/
def walletC9AmendedStatus (rug : Option RugSummary) (dex : Option DexPairInfo) : TokenStatus :=
  if (match rug with | some r => r.rugged | none => false) then .RUGGED
  else
    match dex with
    | some d =>
      if d.liquidityUsd.getD 0 < 1000 then .DEAD
      else if d.liquidityUsd.getD 0 < 5000 then .LOW_LIQ
      else .ACTIVE
    | none =>
      match rug with
      | some r =>
        if 70 < r.score.getD 100 then .HIGH_RISK
        else if 40 < r.score.getD 100 then .CAUTION
        else .ACTIVE
      | none => .UNKNOWN

/-- Concrete input for the C5 counterexample and amended-claim witness: the
record with the earlier timestamp carries the larger slot. -/
def cexTxs : List Bundlecheck.TransactionRecord :=
  [{ slot := some 100, timestamp := some 1, tokenTransfers := [] },
   { slot := some 50, timestamp := some 2, tokenTransfers := [] }]

/-- The analysis the engine returns on cexTxs. -/
def cexAnalysis : Bundlecheck.LaunchAnalysis :=
  { creation_slot := 100, creation_timestamp := 1, block0_buyers := [],
    block0_count := 0, block0_total := 0, block0_pct := 0, total_transferred := 0,
    early_buyer_count := 0, all_buyers := 0, buyers_by_slot := [] }

/-- Concrete input for the C4 witness: one record, no ordering key anywhere. -/
def noSlotTxs : List Bundlecheck.TransactionRecord :=
  [{ slot := none, timestamp := some 7, tokenTransfers := [] }]

/-- Concrete input for the C6 witness: a reference record and no buys at all,
so the total transferred supply is zero. -/
def zeroTotalTxs : List Bundlecheck.TransactionRecord :=
  [{ slot := some 5, timestamp := some 1, tokenTransfers := [] }]

/-- The analysis the engine returns on zeroTotalTxs. -/
def zeroTotalAnalysis : Bundlecheck.LaunchAnalysis :=
  { creation_slot := 5, creation_timestamp := 1, block0_buyers := [],
    block0_count := 0, block0_total := 0, block0_pct := 0, total_transferred := 0,
    early_buyer_count := 0, all_buyers := 0, buyers_by_slot := [] }

/-- Concrete input for the C3 scenario: wallet W buys 10 at the creation slot
and 2 more fifty slots later. -/
def captureOnceTxs : List Bundlecheck.TransactionRecord :=
  [{ slot := some 5, timestamp := some 1,
     tokenTransfers := [{ mint := "M", toUserAccount := some "W",
                          fromUserAccount := some "P", tokenAmount := 10 }] },
   { slot := some 55, timestamp := some 2,
     tokenTransfers := [{ mint := "M", toUserAccount := some "W",
                          fromUserAccount := some "P", tokenAmount := 2 }] }]

/-- Concrete input for the C10 witness: the reference record carries slot 5 and
the only buy of wallet W sits in a record with no slot field. -/
def slotlessBuyTxs : List Bundlecheck.TransactionRecord :=
  [{ slot := some 5, timestamp := some 1, tokenTransfers := [] },
   { slot := none, timestamp := some 2,
     tokenTransfers := [{ mint := "M", toUserAccount := some "W",
                          fromUserAccount := some "P", tokenAmount := 7 }] }]


end ClaudeScreener

namespace ClaudeScreener

theorem addRule_fst (acc : ℤ × List Reason) (d : ℤ) (s : String) :
    (addRule acc d s).1 = acc.1 + d := rfl

theorem clampScore_nonneg (s : ℤ) : 0 ≤ clampScore s := by
  unfold clampScore; omega

theorem clampScore_le_100 (s : ℤ) : clampScore s ≤ 100 := by
  unfold clampScore; omega

theorem le_clampScore_of_le {c x : ℤ} (hc : c ≤ 100) (h : c ≤ x) : c ≤ clampScore x := by
  unfold clampScore; omega

theorem pyTrunc_nonneg {q : ℚ} (h : 0 ≤ q) : 0 ≤ pyTrunc q :=
  Int.tdiv_nonneg (Rat.num_nonneg.mpr h) (Int.ofNat_nonneg _)

theorem buyerCountRule_fst (a : Bundlecheck.LaunchAnalysis) (acc : ℤ × List Reason) :
    (Bundlecheck.buyerCountRule a acc).1 = acc.1 + Bundlecheck.b0CountDelta a := by
  unfold Bundlecheck.buyerCountRule Bundlecheck.b0CountDelta
  split_ifs <;> simp [addRule_fst]

theorem supplyPctRule_fst (a : Bundlecheck.LaunchAnalysis) (acc : ℤ × List Reason) :
    (Bundlecheck.supplyPctRule a acc).1 = acc.1 + Bundlecheck.b0PctDelta a := by
  unfold Bundlecheck.supplyPctRule Bundlecheck.b0PctDelta
  split_ifs <;> simp [addRule_fst]

theorem sniperRule_fst (a : Bundlecheck.LaunchAnalysis) (acc : ℤ × List Reason) :
    (Bundlecheck.sniperRule a acc).1 = acc.1 + Bundlecheck.sniperDelta a := by
  unfold Bundlecheck.sniperRule Bundlecheck.sniperDelta
  rcases a.block0_buyers with _ | ⟨b, rest⟩ <;> dsimp only <;> (try split_ifs) <;>
    simp [addRule_fst]

theorem cleanLaunchRule_fst (a : Bundlecheck.LaunchAnalysis) (acc : ℤ × List Reason) :
    (Bundlecheck.cleanLaunchRule a acc).1 = acc.1 + Bundlecheck.cleanLaunchDelta a := by
  unfold Bundlecheck.cleanLaunchRule Bundlecheck.cleanLaunchDelta
  split_ifs <;> simp [addRule_fst]

theorem devAgeAcc_fst_nonneg (age : ℚ) : 0 ≤ (Walletscreen.devAgeAcc age).1 := by
  unfold Walletscreen.devAgeAcc
  split_ifs <;> simp [addRule_fst]

theorem devRugRateRule_mono (tl rc : ℕ) (acc : ℤ × List Reason) :
    acc.1 ≤ (Walletscreen.devRugRateRule tl rc acc).1 := by
  unfold Walletscreen.devRugRateRule
  dsimp only
  split_ifs <;> (try simp only [addRule_fst]) <;> omega

theorem devRugFloorRule_ge (rc : ℕ) (hrc : 0 < rc) (acc : ℤ × List Reason) :
    40 ≤ (Walletscreen.devRugFloorRule rc acc).1 := by
  unfold Walletscreen.devRugFloorRule
  split_ifs with h
  · exact le_refl _
  · push_neg at h
    exact h hrc

theorem devDeadRule_mono (rc dc : ℕ) (acc : ℤ × List Reason) :
    acc.1 ≤ (Walletscreen.devDeadRule rc dc acc).1 := by
  unfold Walletscreen.devDeadRule
  split_ifs with h
  · simp only [addRule_fst]
    omega
  · exact le_refl _

theorem devSerialRule_mono (lpw : ℚ) (acc : ℤ × List Reason) :
    acc.1 ≤ (Walletscreen.devSerialRule lpw acc).1 := by
  unfold Walletscreen.devSerialRule
  split_ifs with h h2
  · have hS : (0 : ℤ) ≤ pyTrunc (lpw * 5) := pyTrunc_nonneg (by nlinarith)
    simp only [addRule_fst]
    omega
  · simp only [addRule_fst]
    omega
  · exact le_refl _

theorem devVolumeRule_mono (tl : ℕ) (acc : ℤ × List Reason) :
    acc.1 ≤ (Walletscreen.devVolumeRule tl acc).1 := by
  unfold Walletscreen.devVolumeRule
  split_ifs <;> simp [addRule_fst]

theorem devCleanRule_id_of_bad (tl bad : ℕ) (hbad : 0 < bad) (acc : ℤ × List Reason) :
    Walletscreen.devCleanRule tl bad acc = acc := by
  unfold Walletscreen.devCleanRule
  rw [if_neg (by omega)]

/-- C1: for every metrics input, including pathological ones whose rule deltas
sum below 0 or above 100, each of the three rule-based scorers
(calculate_risk_score, calculate_custom_score, calculate_dev_risk_score)
returns a score in the inclusive range 0..100. -/
theorem c1_scores_within_range :
    (∀ a : Bundlecheck.LaunchAnalysis,
      0 ≤ (Bundlecheck.calculate_risk_score a).1 ∧
        (Bundlecheck.calculate_risk_score a).1 ≤ 100) ∧
    (∀ (rugcheck : Tokenscreen.RugcheckReport) (dex : Option DexPairInfo),
      0 ≤ (Tokenscreen.calculate_custom_score rugcheck dex).1 ∧
        (Tokenscreen.calculate_custom_score rugcheck dex).1 ≤ 100) ∧
    (∀ (age lpw : ℚ) (tl rc dc : ℕ),
      0 ≤ (Walletscreen.calculate_dev_risk_score age tl rc dc lpw).1 ∧
        (Walletscreen.calculate_dev_risk_score age tl rc dc lpw).1 ≤ 100) := by
  refine ⟨fun a => ?_, fun rugcheck dex => ?_, fun age lpw tl rc dc => ?_⟩
  · unfold Bundlecheck.calculate_risk_score
    dsimp only
    exact ⟨clampScore_nonneg _, clampScore_le_100 _⟩
  · unfold Tokenscreen.calculate_custom_score
    dsimp only
    exact ⟨clampScore_nonneg _, clampScore_le_100 _⟩
  · unfold Walletscreen.calculate_dev_risk_score
    by_cases h1 : age < 3
    · rw [if_pos h1]
      exact ⟨by norm_num, by norm_num⟩
    · rw [if_neg h1]
      dsimp only
      by_cases h2 : tl = 0
      · rw [if_pos h2]
        dsimp only
        constructor
        · exact le_min (by norm_num) (le_trans (by norm_num) (le_max_right _ _))
        · exact min_le_left _ _
      · rw [if_neg h2]
        dsimp only
        exact ⟨clampScore_nonneg _, clampScore_le_100 _⟩

/-- C2: in calculate_risk_score the threshold tiers within one metric are
mutually exclusive (the score is the clamp of the sum of one highest-matching
tier delta per category) while distinct categories accumulate; the concrete
scenario with 25 Block-0 buyers, 60 percent window share and a 12 percent
largest buyer scores exactly 95 with contributions +40, +35 and +20 and no
clean-launch deduction. -/
theorem c2_tiers_exclusive_categories_additive :
    (∀ a : Bundlecheck.LaunchAnalysis,
      (Bundlecheck.calculate_risk_score a).1 =
        clampScore (Bundlecheck.b0CountDelta a + Bundlecheck.b0PctDelta a +
          Bundlecheck.sniperDelta a + Bundlecheck.cleanLaunchDelta a)) ∧
    Bundlecheck.calculate_risk_score scenarioBlock0 =
      (95, [(40, "wallets bought in Block 0 (highly coordinated)"),
            (35, "of supply grabbed in Block 0"),
            (20, "Single wallet sniped in Block 0")]) := by
  constructor
  · intro a
    unfold Bundlecheck.calculate_risk_score
    dsimp only
    rw [cleanLaunchRule_fst, sniperRule_fst, supplyPctRule_fst, buyerCountRule_fst]
    refine congrArg clampScore ?_
    try dsimp only
    ring
  · have hc : scenarioBlock0.block0_count = 25 := rfl
    have hp : scenarioBlock0.block0_pct = 60 := rfl
    have ht : scenarioBlock0.total_transferred = 100 := rfl
    have hbs : scenarioBlock0.block0_buyers = ("w0", 12) :: List.replicate 24 ("w", (2 : ℚ)) := rfl
    unfold Bundlecheck.calculate_risk_score Bundlecheck.buyerCountRule
      Bundlecheck.supplyPctRule Bundlecheck.sniperRule Bundlecheck.cleanLaunchRule
    rw [hc, hp, ht, hbs]
    dsimp only
    rw [if_pos (by norm_num : (20 : ℕ) ≤ 25), if_pos (by norm_num : (50 : ℚ) ≤ 60),
      if_pos (by norm_num : (10 : ℚ) ≤ 12 / 100 * 100),
      if_neg (by norm_num : ¬ ((25 : ℕ) ≤ 2 ∧ (60 : ℚ) < 5))]
    decide

/-- C7: a wallet younger than 3 days short-circuits calculate_dev_risk_score to
exactly 95 with the single burner-wallet reason, whatever the other metrics. -/
theorem c7_fresh_wallet_override (age : ℚ) (tl rc dc : ℕ) (lpw : ℚ) (h : age < 3) :
    Walletscreen.calculate_dev_risk_score age tl rc dc lpw = (95, [(95, "BURNER WALLET")]) := by
  unfold Walletscreen.calculate_dev_risk_score
  rw [if_pos h]

/-- Witness for C7: a 1-day-old wallet with zero prior launches scores 95. -/
theorem c7_fresh_wallet_override_witness :
    (1 : ℚ) < 3 ∧
      Walletscreen.calculate_dev_risk_score 1 0 0 0 0 = (95, [(95, "BURNER WALLET")]) :=
  ⟨by norm_num, c7_fresh_wallet_override 1 0 0 0 0 (by norm_num)⟩

/-- C8: with wallet age at least 3 days, at least one launch and at least one
rug, the final dev risk score is at least 40; no later rule can undercut the
rug floor. -/
theorem c8_rug_floor (age : ℚ) (tl rc dc : ℕ) (lpw : ℚ)
    (h1 : 3 ≤ age) (h2 : 1 ≤ tl) (h3 : 1 ≤ rc) :
    40 ≤ (Walletscreen.calculate_dev_risk_score age tl rc dc lpw).1 := by
  unfold Walletscreen.calculate_dev_risk_score
  rw [if_neg (not_lt.mpr h1)]
  dsimp only
  rw [if_neg (by omega : ¬ tl = 0)]
  dsimp only
  refine le_clampScore_of_le (by norm_num) ?_
  calc (40 : ℤ)
      ≤ (Walletscreen.devRugFloorRule rc
          (Walletscreen.devRugRateRule tl rc (Walletscreen.devAgeAcc age))).1 :=
        devRugFloorRule_ge rc (by omega) _
    _ ≤ (Walletscreen.devDeadRule rc dc
          (Walletscreen.devRugFloorRule rc
            (Walletscreen.devRugRateRule tl rc (Walletscreen.devAgeAcc age)))).1 :=
        devDeadRule_mono _ _ _
    _ ≤ (Walletscreen.devSerialRule lpw
          (Walletscreen.devDeadRule rc dc
            (Walletscreen.devRugFloorRule rc
              (Walletscreen.devRugRateRule tl rc (Walletscreen.devAgeAcc age))))).1 :=
        devSerialRule_mono _ _
    _ ≤ (Walletscreen.devVolumeRule tl
          (Walletscreen.devSerialRule lpw
            (Walletscreen.devDeadRule rc dc
              (Walletscreen.devRugFloorRule rc
                (Walletscreen.devRugRateRule tl rc (Walletscreen.devAgeAcc age)))))).1 :=
        devVolumeRule_mono _ _
    _ = (Walletscreen.devCleanRule tl (rc + dc)
          (Walletscreen.devVolumeRule tl
            (Walletscreen.devSerialRule lpw
              (Walletscreen.devDeadRule rc dc
                (Walletscreen.devRugFloorRule rc
                  (Walletscreen.devRugRateRule tl rc (Walletscreen.devAgeAcc age))))))).1 := by
        rw [devCleanRule_id_of_bad tl (rc + dc) (by omega)]

/-- Witness for C8: a 10-day-old wallet with 2 launches, 1 rug and nothing else
is floored at 40. -/
theorem c8_rug_floor_witness :
    40 ≤ (Walletscreen.calculate_dev_risk_score 10 2 1 0 0).1 :=
  c8_rug_floor 10 2 1 0 0 (by norm_num) (by norm_num) (by norm_num)

/-- Counterexample to C9 as stated: the walletscreen classifier, with no
liquidity reading and a safety score of 50, returns CAUTION where the claim
prescribes UNKNOWN. -/
theorem c9_claimed_precedence_counterexample :
    Walletscreen.classify_token_outcome (some ⟨false, some 50⟩) none = .CAUTION ∧
    claimC9Status (some ⟨false, some 50⟩) none = .UNKNOWN ∧
    TokenStatus.CAUTION ≠ TokenStatus.UNKNOWN := by
  refine ⟨?_, ?_, by decide⟩ <;> decide

/-- C9 (amended): the tokenscreen classifier realizes exactly the claimed
precedence; the walletscreen classifier realizes it with the amended lower
score buckets (CAUTION above 40, else ACTIVE) when only a safety score exists. -/
theorem c9_outcome_precedence_amended :
    (∀ (rug : Option RugSummary) (dex : Option DexPairInfo),
      Tokenscreen.classify_token_outcome rug dex = claimC9Status rug dex) ∧
    (∀ (rug : Option RugSummary) (dex : Option DexPairInfo),
      Walletscreen.classify_token_outcome rug dex = walletC9AmendedStatus rug dex) := by
  constructor
  · intro rug dex
    rcases rug with _ | r <;> rcases dex with _ | d <;>
      simp only [Tokenscreen.classify_token_outcome, claimC9Status] <;> rfl
  · intro rug dex
    rcases rug with _ | r <;> rcases dex with _ | d <;>
      simp only [Walletscreen.classify_token_outcome, walletC9AmendedStatus] <;> rfl

end ClaudeScreener

namespace ClaudeScreener

open Bundlecheck

theorem updateOnBuy_amount (e : BuyEvent) (p : Purchase) :
    (updateOnBuy e p).amount = p.amount + e.amount := by
  unfold updateOnBuy
  split_ifs <;> rfl

theorem updateOnBuy_slot_ne_none (e : BuyEvent) (p : Purchase) :
    (updateOnBuy e p).slot ≠ none := by
  unfold updateOnBuy
  split_ifs with h
  · simp
  · simpa using h

theorem updateOnBuy_keeps (e : BuyEvent) (p : Purchase) (h : ¬ p.slot = none) :
    updateOnBuy e p = { p with amount := p.amount + e.amount } := by
  unfold updateOnBuy
  rw [if_neg h]

theorem updateOnBuy_default (e : BuyEvent) :
    updateOnBuy e defaultPurchase =
      { amount := 0 + e.amount, slot := some e.slot,
        is_block0 := decide (e.slotDiff ≤ 1) } := by
  unfold updateOnBuy defaultPurchase
  rw [if_pos rfl]

theorem find?_update_ne (m : PurchaseMap) (ew w : String) (g : Purchase → Purchase)
    (h : ¬ ew = w) :
    (m.map fun q => if q.1 == ew then (q.1, g q.2) else q).find? (fun q => q.1 == w) =
      m.find? (fun q => q.1 == w) := by
  induction m with
  | nil => rfl
  | cons q m ih =>
    simp only [List.map_cons, List.find?_cons]
    by_cases hq : q.1 = ew
    · rw [if_pos (by simpa using hq : (q.1 == ew) = true)]
      have hw : (q.1 == w) = false := by
        refine beq_eq_false_iff_ne.mpr ?_
        rw [hq]
        exact h
      simp only [hw]
      exact ih
    · rw [if_neg (by simpa using hq : ¬ (q.1 == ew) = true)]
      by_cases hw : q.1 = w
      · simp only [show (q.1 == w) = true by simpa using hw]
      · simp only [show (q.1 == w) = false from beq_eq_false_iff_ne.mpr hw]
        exact ih

theorem find?_update_eq (m : PurchaseMap) (ew : String) (g : Purchase → Purchase)
    (pr : String × Purchase) (hfind : m.find? (fun q => q.1 == ew) = some pr) :
    (m.map fun q => if q.1 == ew then (q.1, g q.2) else q).find? (fun q => q.1 == ew) =
      some (pr.1, g pr.2) := by
  induction m with
  | nil => simp at hfind
  | cons q m ih =>
    simp only [List.find?_cons] at hfind
    simp only [List.map_cons, List.find?_cons]
    by_cases hq : q.1 = ew
    · have hb : (q.1 == ew) = true := by simpa using hq
      rw [if_pos hb]
      simp only [hb] at hfind ⊢
      obtain rfl : q = pr := Option.some.inj hfind
      rfl
    · have hb : (q.1 == ew) = false := beq_eq_false_iff_ne.mpr hq
      rw [if_neg (by simp [hb])]
      simp only [hb] at hfind ⊢
      exact ih hfind

theorem lookupW_step_ne (m : PurchaseMap) (e : BuyEvent) (w : String) (h : ¬ e.wallet = w) :
    lookupW (stepPurchase m e) w = lookupW m w := by
  rcases hfind : m.find? (fun q => q.1 == e.wallet) with _ | pr
  · simp only [stepPurchase, hfind]
    unfold lookupW
    rw [List.find?_append]
    have h1 : ([(e.wallet, updateOnBuy e defaultPurchase)].find? (fun q => q.1 == w)) = none := by
      simp [beq_eq_false_iff_ne.mpr h]
    rw [h1, Option.or_none]
  · simp only [stepPurchase, hfind]
    unfold lookupW
    rw [find?_update_ne m e.wallet w _ h]

theorem lookupW_step_self (m : PurchaseMap) (e : BuyEvent) :
    lookupW (stepPurchase m e) e.wallet =
      some (updateOnBuy e ((lookupW m e.wallet).getD defaultPurchase)) := by
  rcases hfind : m.find? (fun q => q.1 == e.wallet) with _ | pr
  · simp only [stepPurchase, hfind]
    unfold lookupW
    rw [List.find?_append, hfind, Option.none_or]
    simp
  · simp only [stepPurchase, hfind]
    unfold lookupW
    rw [find?_update_eq m e.wallet _ pr hfind, hfind]
    rfl

theorem stepPurchase_slot (m : PurchaseMap) (e : BuyEvent)
    (hm : ∀ q ∈ m, q.2.slot ≠ none) :
    ∀ q ∈ stepPurchase m e, q.2.slot ≠ none := by
  intro q hq
  rcases hfind : m.find? (fun q => q.1 == e.wallet) with _ | pr <;>
    simp only [stepPurchase, hfind] at hq
  · rcases List.mem_append.mp hq with h | h
    · exact hm q h
    · rw [List.mem_singleton.mp h]
      exact updateOnBuy_slot_ne_none _ _
  · rcases List.mem_map.mp hq with ⟨q0, hq0, rfl⟩
    by_cases hh : (q0.1 == e.wallet) = true
    · rw [if_pos hh]
      exact updateOnBuy_slot_ne_none _ _
    · rw [if_neg hh]
      exact hm q0 hq0

theorem stepPurchase_pos (m : PurchaseMap) (e : BuyEvent) (he : 0 < e.amount)
    (hm : ∀ q ∈ m, 0 < q.2.amount) :
    ∀ q ∈ stepPurchase m e, 0 < q.2.amount := by
  intro q hq
  rcases hfind : m.find? (fun q => q.1 == e.wallet) with _ | pr <;>
    simp only [stepPurchase, hfind] at hq
  · rcases List.mem_append.mp hq with h | h
    · exact hm q h
    · rw [List.mem_singleton.mp h]
      dsimp only
      rw [updateOnBuy_amount]
      simp only [defaultPurchase]
      linarith
  · rcases List.mem_map.mp hq with ⟨q0, hq0, rfl⟩
    by_cases hh : (q0.1 == e.wallet) = true
    · rw [if_pos hh]
      dsimp only
      rw [updateOnBuy_amount]
      have := hm q0 hq0
      linarith
    · rw [if_neg hh]
      exact hm q0 hq0

theorem foldl_stepPurchase_slot (evs : List BuyEvent) :
    ∀ (m : PurchaseMap), (∀ q ∈ m, q.2.slot ≠ none) →
      ∀ q ∈ evs.foldl stepPurchase m, q.2.slot ≠ none := by
  induction evs with
  | nil => intro m hm; simpa using hm
  | cons e evs ih =>
    intro m hm
    simp only [List.foldl_cons]
    exact ih _ (stepPurchase_slot m e hm)

theorem foldl_stepPurchase_pos (evs : List BuyEvent) (hevs : ∀ e ∈ evs, 0 < e.amount) :
    ∀ (m : PurchaseMap), (∀ q ∈ m, 0 < q.2.amount) →
      ∀ q ∈ evs.foldl stepPurchase m, 0 < q.2.amount := by
  induction evs with
  | nil => intro m hm; simpa using hm
  | cons e evs ih =>
    intro m hm
    simp only [List.foldl_cons]
    exact ih (fun x hx => hevs x (List.mem_cons_of_mem _ hx)) _
      (stepPurchase_pos m e (hevs e (List.mem_cons_self e evs)) hm)

end ClaudeScreener

namespace ClaudeScreener

open Bundlecheck

theorem lookupW_mem {m : PurchaseMap} {w : String} {p : Purchase}
    (h : lookupW m w = some p) : (w, p) ∈ m := by
  unfold lookupW at h
  rcases hf : m.find? (fun q => q.1 == w) with _ | pr
  · rw [hf] at h
    simp at h
  · rw [hf] at h
    obtain ⟨k, v⟩ := pr
    obtain rfl : v = p := by simpa using h
    have hmem := List.mem_of_find?_eq_some hf
    have hkey : k = w := by
      have hpred := List.find?_some hf
      simpa using hpred
    rw [← hkey]
    exact hmem

theorem lookupW_foldl (w : String) (evs : List BuyEvent) :
    ∀ (m : PurchaseMap), (∀ q ∈ m, q.2.slot ≠ none) →
    lookupW (evs.foldl stepPurchase m) w =
      match lookupW m w, evs.filter (fun e => e.wallet == w) with
      | some p, fil => some { p with amount := p.amount + (fil.map (·.amount)).sum }
      | none, [] => none
      | none, e :: later =>
        some { amount := e.amount + (later.map (·.amount)).sum,
               slot := some e.slot, is_block0 := decide (e.slotDiff ≤ 1) } := by
  induction evs with
  | nil =>
    intro m _
    simp only [List.foldl_nil, List.filter_nil]
    rcases hl : lookupW m w with _ | p
    · rfl
    · simp
  | cons e evs ih =>
    intro m hm
    simp only [List.foldl_cons, List.filter_cons]
    by_cases hw : e.wallet = w
    · have hbeq : (e.wallet == w) = true := by simpa using hw
      rw [if_pos hbeq]
      rw [ih _ (stepPurchase_slot m e hm)]
      have hself := lookupW_step_self m e
      rw [hw] at hself
      rw [hself]
      rcases hl : lookupW m w with _ | p
      · dsimp only [Option.getD]
        rw [updateOnBuy_default]
        dsimp only
        simp [zero_add, add_assoc]
      · have hpslot : ¬ p.slot = none := by
          have hmem := lookupW_mem hl
          exact hm (w, p) hmem
        dsimp only [Option.getD]
        rw [updateOnBuy_keeps e p hpslot]
        dsimp only
        simp [add_assoc]
    · have hbeq : (e.wallet == w) = false := beq_eq_false_iff_ne.mpr hw
      rw [if_neg (by simp [hbeq])]
      rw [ih _ (stepPurchase_slot m e hm)]
      rw [lookupW_step_ne m e w hw]

end ClaudeScreener

namespace ClaudeScreener

open Bundlecheck

theorem buyEvents_mem (mint : String) (c : ℕ) (txs : List TransactionRecord)
    {e : BuyEvent} (he : e ∈ buyEvents mint c txs) :
    0 < e.amount ∧ e.slot = e.txSlot.getD 0 ∧
      e.slotDiff = (if c = 0 then 0 else (e.txSlot.getD 0 : ℤ) - (c : ℤ)) := by
  unfold buyEvents at he
  rcases List.mem_flatMap.mp he with ⟨tx, htx, he⟩
  unfold buyEventsOfTx at he
  rcases List.mem_filterMap.mp he with ⟨tr, htr, hsome⟩
  split_ifs at hsome <;>
    first
    | exact Option.noConfusion hsome
    | (have hinj := Option.some.inj hsome
       subst hinj
       refine ⟨by simp_all, rfl, by simp_all⟩)

theorem mem_sortByTimestamp {tx : TransactionRecord} {txs : List TransactionRecord} :
    tx ∈ sortByTimestamp txs ↔ tx ∈ txs := by
  unfold sortByTimestamp
  exact List.mem_insertionSort _

theorem mkAnalysis_creation_slot (mint : String) (c : ℕ) (cts : ℤ)
    (txs : List TransactionRecord) : (mkAnalysis mint c cts txs).creation_slot = c := rfl

theorem mkAnalysis_total (mint : String) (c : ℕ) (cts : ℤ) (txs : List TransactionRecord) :
    (mkAnalysis mint c cts txs).total_transferred =
      ((wallet_purchases mint c txs).map (fun q => q.2.amount)).sum := rfl

theorem mkAnalysis_pct (mint : String) (c : ℕ) (cts : ℤ) (txs : List TransactionRecord) :
    (mkAnalysis mint c cts txs).block0_pct =
      (if 0 < (mkAnalysis mint c cts txs).total_transferred then
        (mkAnalysis mint c cts txs).block0_total /
          (mkAnalysis mint c cts txs).total_transferred * 100
      else 0) := rfl

theorem mkAnalysis_buyers (mint : String) (c : ℕ) (cts : ℤ) (txs : List TransactionRecord) :
    (mkAnalysis mint c cts txs).block0_buyers =
      List.insertionSort (fun a b => b.2 ≤ a.2)
        (block0Entries (wallet_purchases mint c txs)) := rfl

theorem analyze_ok_elim {txs : List TransactionRecord} {mint : String} {r : LaunchAnalysis}
    (h : analyze_launch_transactions txs mint = Except.ok r) :
    txs ≠ [] ∧ ∃ c cts, findCreationSlot (sortByTimestamp txs) = some (c, cts) ∧
      r = mkAnalysis mint c cts txs := by
  unfold analyze_launch_transactions at h
  by_cases hne : txs = []
  · rw [if_pos hne] at h
    simp at h
  · rw [if_neg hne] at h
    rcases hf : findCreationSlot (sortByTimestamp txs) with _ | ⟨c, cts⟩
    · rw [hf] at h
      simp at h
    · rw [hf] at h
      simp only [] at h
      refine ⟨hne, c, cts, rfl, ?_⟩
      exact (Except.ok.inj h).symm

theorem findCreationSlot_none (l : List TransactionRecord) (h : ∀ tx ∈ l, tx.slot = none) :
    findCreationSlot l = none := by
  induction l with
  | nil => rfl
  | cons tx rest ih =>
    simp only [findCreationSlot, h tx (List.mem_cons_self tx rest)]
    exact ih (fun t ht => h t (List.mem_cons_of_mem _ ht))

theorem findCreationSlot_map_fst (l : List TransactionRecord) :
    (findCreationSlot l).map Prod.fst = (truthySlotsOf l).head? := by
  induction l with
  | nil => rfl
  | cons tx rest ih =>
    rcases hs : tx.slot with _ | s
    · simp only [findCreationSlot, truthySlotsOf, List.filterMap_cons, hs] at ih ⊢
      exact ih
    · by_cases h0 : s = 0
      · subst h0
        simp only [findCreationSlot, truthySlotsOf, List.filterMap_cons, hs, if_pos rfl] at ih ⊢
        exact ih
      · simp only [findCreationSlot, truthySlotsOf, List.filterMap_cons, hs, if_neg h0]
        rfl

end ClaudeScreener

namespace ClaudeScreener

open Bundlecheck

/-- C3: launch-window classification is capture-once: a wallet entry in
wallet_purchases has its is_block0 flag fixed by the wallet's first qualifying
buy event (true exactly when that first event offset from the reference is at
most 1), never changed by later buys, while the cumulative amount sums all of
the wallet's buys; concretely, a wallet whose first buy is at the creation slot
and whose second buy comes 50 slots later keeps is_block0 = true and
accumulates both amounts. -/
theorem c3_capture_once_classification :
    (∀ (txs : List Bundlecheck.TransactionRecord) (mint : String) (c : ℕ) (w : String),
      Bundlecheck.lookupW (Bundlecheck.wallet_purchases mint c txs) w =
        match (Bundlecheck.buyEvents mint c (Bundlecheck.sortByTimestamp txs)).filter
            (fun e => e.wallet == w) with
        | [] => none
        | e :: later =>
          some { amount := e.amount + (later.map (fun x => x.amount)).sum,
                 slot := some e.slot,
                 is_block0 := decide (e.slotDiff ≤ 1) }) ∧
    Bundlecheck.lookupW (Bundlecheck.wallet_purchases "M" 5 captureOnceTxs) "W" =
      some { amount := 12, slot := some 5, is_block0 := true } := by
  constructor
  · intro txs mint c w
    unfold Bundlecheck.wallet_purchases
    rw [lookupW_foldl w _ [] (by simp)]
    have h0 : lookupW ([] : PurchaseMap) w = none := rfl
    rw [h0]
    rcases hfil : (buyEvents mint c (sortByTimestamp txs)).filter (fun e => e.wallet == w) with
      _ | ⟨e, later⟩ <;> rw [hfil]
  · unfold Bundlecheck.wallet_purchases
    rw [lookupW_foldl "W" _ [] (by simp)]
    norm_num [captureOnceTxs, Bundlecheck.buyEvents, Bundlecheck.buyEventsOfTx,
      Bundlecheck.sortByTimestamp, Bundlecheck.txTimestamp, List.insertionSort,
      List.orderedInsert, truthyStr, Bundlecheck.lookupW, List.find?, List.filterMap,
      List.filter]

/-- C4: a nonempty transaction list in which no record carries an ordering key
makes launch-window analysis return the named hard failure, not a score. -/
theorem c4_missing_reference_point (txs : List Bundlecheck.TransactionRecord) (mint : String)
    (hne : txs ≠ []) (hslots : ∀ tx ∈ txs, tx.slot = none) :
    Bundlecheck.analyze_launch_transactions txs mint =
      Except.error "Could not determine creation slot" := by
  unfold Bundlecheck.analyze_launch_transactions
  rw [if_neg hne,
    findCreationSlot_none _ (fun tx htx => hslots tx (mem_sortByTimestamp.mp htx))]

/-- Witness for C4: one record without a slot field yields the hard failure. -/
theorem c4_missing_reference_point_witness :
    Bundlecheck.analyze_launch_transactions noSlotTxs "M" =
      Except.error "Could not determine creation slot" :=
  c4_missing_reference_point noSlotTxs "M" (by decide) (by decide)

/-- Counterexample to C5 as stated: on cexTxs the chosen reference slot is 100,
the slot of the earliest-by-timestamp record, while the minimum ordering key
carried by any record is 50. -/
theorem c5_reference_not_minimum_counterexample :
    Bundlecheck.analyze_launch_transactions cexTxs "M" = Except.ok cexAnalysis ∧
    cexAnalysis.creation_slot = 100 ∧
    (cexTxs.filterMap Bundlecheck.TransactionRecord.slot).min? = some 50 ∧
    cexAnalysis.creation_slot ≠ 50 := by
  refine ⟨by rfl, rfl, by decide, by decide⟩

/-- C5 (amended): the reference ordering key equals the first truthy (present
and nonzero) slot of the records scanned in ascending timestamp order, which
need not be the minimum slot overall. -/
theorem c5_reference_is_first_truthy_slot (txs : List Bundlecheck.TransactionRecord)
    (mint : String) (r : Bundlecheck.LaunchAnalysis)
    (h : Bundlecheck.analyze_launch_transactions txs mint = Except.ok r) :
    some r.creation_slot = (Bundlecheck.truthySlotsOf (Bundlecheck.sortByTimestamp txs)).head? := by
  obtain ⟨hne, c, cts, hf, rfl⟩ := analyze_ok_elim h
  rw [mkAnalysis_creation_slot, ← findCreationSlot_map_fst, hf]
  rfl

/-- Witness for the amended C5, at the counterexample input. -/
theorem c5_reference_is_first_truthy_slot_witness :
    some cexAnalysis.creation_slot =
      (Bundlecheck.truthySlotsOf (Bundlecheck.sortByTimestamp cexTxs)).head? :=
  c5_reference_is_first_truthy_slot cexTxs "M" cexAnalysis (by rfl)

/-- C6: zero-denominator safety: when the total transferred amount is zero the
window-share percentage is 0 rather than a division error, and whenever the
Block-0 buyers list is nonempty the denominator total_transferred is strictly
positive, so the single-largest-buyer division is never by zero. -/
theorem c6_zero_denominator_safety (txs : List Bundlecheck.TransactionRecord)
    (mint : String) (r : Bundlecheck.LaunchAnalysis)
    (h : Bundlecheck.analyze_launch_transactions txs mint = Except.ok r) :
    (r.total_transferred = 0 → r.block0_pct = 0) ∧
    (r.block0_buyers ≠ [] → 0 < r.total_transferred) := by
  obtain ⟨hne, c, cts, hf, rfl⟩ := analyze_ok_elim h
  constructor
  · intro h0
    rw [mkAnalysis_pct, h0]
    norm_num
  · intro hb
    rw [mkAnalysis_buyers] at hb
    rw [mkAnalysis_total]
    have hb0 : block0Entries (wallet_purchases mint c txs) ≠ [] := by
      intro hnil
      rw [hnil] at hb
      exact hb rfl
    have hmne : wallet_purchases mint c txs ≠ [] := by
      intro hnil
      apply hb0
      rw [hnil]
      rfl
    have hpos : ∀ x ∈ (wallet_purchases mint c txs).map (fun q => q.2.amount), 0 < x := by
      intro x hx
      rcases List.mem_map.mp hx with ⟨q0, hq0, rfl⟩
      refine foldl_stepPurchase_pos _ ?_ [] (by simp) q0 hq0
      intro ev hev
      exact (buyEvents_mem mint c (sortByTimestamp txs) hev).1
    have hne2 : (wallet_purchases mint c txs).map (fun q => q.2.amount) ≠ [] := by
      intro hnil
      exact hmne (List.map_eq_nil_iff.mp hnil)
    exact List.sum_pos _ hpos hne2

/-- Witness for C6: an analysis with no buys has zero transferred supply and a
zero window-share percentage, with an empty Block-0 buyers list. -/
theorem c6_zero_denominator_safety_witness :
    (zeroTotalAnalysis.total_transferred = 0 → zeroTotalAnalysis.block0_pct = 0) ∧
    (zeroTotalAnalysis.block0_buyers ≠ [] → 0 < zeroTotalAnalysis.total_transferred) :=
  c6_zero_denominator_safety zeroTotalTxs "M" zeroTotalAnalysis (by rfl)

/-- C10: a qualifying transfer carried by a record without an ordering key is
not dropped: the missing slot defaults to 0, the offset 0 - c satisfies the
window test, so a wallet whose first buy sits in a slot-less record is flagged
is_block0 and appears among the Block-0 buyers of the analysis. -/
theorem c10_slotless_record_is_window_buy
    (txs : List Bundlecheck.TransactionRecord) (mint w : String) (c : ℕ) (cts : ℤ)
    (e : Bundlecheck.BuyEvent) (later : List Bundlecheck.BuyEvent)
    (hne : txs ≠ [])
    (hf : Bundlecheck.findCreationSlot (Bundlecheck.sortByTimestamp txs) = some (c, cts))
    (hfil : (Bundlecheck.buyEvents mint c (Bundlecheck.sortByTimestamp txs)).filter
        (fun e => e.wallet == w) = e :: later)
    (hnoslot : e.txSlot = none) :
    Bundlecheck.analyze_launch_transactions txs mint =
        Except.ok (Bundlecheck.mkAnalysis mint c cts txs) ∧
    (∃ p, Bundlecheck.lookupW (Bundlecheck.wallet_purchases mint c txs) w = some p ∧
        p.is_block0 = true) ∧
    w ∈ (Bundlecheck.mkAnalysis mint c cts txs).block0_buyers.map Prod.fst := by
  have hmem_e : e ∈ buyEvents mint c (sortByTimestamp txs) := by
    have hx : e ∈ (buyEvents mint c (sortByTimestamp txs)).filter (fun e => e.wallet == w) := by
      rw [hfil]
      exact List.mem_cons_self _ _
    exact (List.mem_filter.mp hx).1
  have hflag : decide (e.slotDiff ≤ 1) = true := by
    obtain ⟨-, -, hdiff⟩ := buyEvents_mem mint c _ hmem_e
    rw [hnoslot] at hdiff
    rw [decide_eq_true_eq, hdiff]
    split_ifs with hc
    · norm_num
    · simp only [Option.getD_none]
      omega
  have hlook : lookupW (wallet_purchases mint c txs) w =
      some { amount := e.amount + (later.map (fun x => x.amount)).sum,
             slot := some e.slot, is_block0 := decide (e.slotDiff ≤ 1) } := by
    unfold Bundlecheck.wallet_purchases
    rw [lookupW_foldl w _ [] (by simp)]
    have h0 : lookupW ([] : PurchaseMap) w = none := rfl
    rw [h0, hfil]
  refine ⟨?_, ⟨_, hlook, hflag⟩, ?_⟩
  · unfold Bundlecheck.analyze_launch_transactions
    rw [if_neg hne, hf]
  · rw [mkAnalysis_buyers]
    have hmemP := lookupW_mem hlook
    refine List.mem_map.mpr
      ⟨(w, e.amount + (later.map (fun x => x.amount)).sum), ?_, rfl⟩
    refine (List.mem_insertionSort _).mpr ?_
    unfold Bundlecheck.block0Entries
    refine List.mem_map.mpr
      ⟨(w, { amount := e.amount + (later.map (fun x => x.amount)).sum,
             slot := some e.slot, is_block0 := decide (e.slotDiff ≤ 1) }), ?_, rfl⟩
    refine List.mem_filter.mpr ⟨hmemP, ?_⟩
    simpa using hflag

/-- Witness for C10: with the reference at slot 5, a buy carried by a record
with no slot field is classified as a Block-0 buy and appears in the
Block-0 buyers of the analysis. -/
theorem c10_slotless_record_is_window_buy_witness :
    Bundlecheck.analyze_launch_transactions slotlessBuyTxs "M" =
        Except.ok (Bundlecheck.mkAnalysis "M" 5 1 slotlessBuyTxs) ∧
    (∃ p, Bundlecheck.lookupW (Bundlecheck.wallet_purchases "M" 5 slotlessBuyTxs) "W" = some p ∧
        p.is_block0 = true) ∧
    "W" ∈ (Bundlecheck.mkAnalysis "M" 5 1 slotlessBuyTxs).block0_buyers.map Prod.fst :=
  c10_slotless_record_is_window_buy slotlessBuyTxs "M" "W" 5 1
    ⟨"W", 7, none, 0, -5⟩ [] (by decide) (by rfl) (by rfl) (by rfl)

end ClaudeScreener
